import Mathlib

/-!
# opengl-qt-cube: a shallow embedding of `MyOpenGLWidget`

The widget of `src/opengl-qt-cube/my_opengl_widget.{h,cpp}` is embedded as a
record of its data members together with pure functions, one per member
function, each returning the new widget and the list of toolkit / GL calls it
issued, in program order.

Conventions of the embedding

* Qt objects the widget only manipulates through their API (matrices, the
  shader program, buffers) are represented by the record of what the widget
  did to them: a `QMatrix4x4` is the term of `QMatrix4x4` operations applied
  to it, a float passed to the toolkit is a `FloatExpr`.
* What the toolkit answers (does a shader file load, does the program link,
  how large is a `std::vector` object) is a parameter, `Env`.
* `rotation_angle` is a binary32 `float`.  Every value it takes is a
  non-negative integer, so it is stored as that integer and `+= 1.0f` is
  addition followed by IEEE-754 round-to-nearest-even to a 24 bit significand.
-/

namespace OpenGLQtCube

/-! ## Scalars and vectors -/

/-- A `float` expression handed to the toolkit, recorded as written. -/
inductive FloatExpr where
  /-- a `float` literal (or a float value), given by its decimal value -/
  | lit (q : ℚ)
  /-- the conversion `float(i)` of an `int` -/
  | ofInt (i : Int)
  /-- the `float` division `a / b` -/
  | div (a b : FloatExpr)
  deriving DecidableEq

/-- The three components of a `QVector3D` built from literals. -/
structure QVector3D where
  x : ℚ
  y : ℚ
  z : ℚ
  deriving DecidableEq

namespace QVector3D

/-- Component-wise difference, `a - b`. -/
def sub (a b : QVector3D) : QVector3D := ⟨a.x - b.x, a.y - b.y, a.z - b.z⟩

/-- Component-wise sum, `a + b`. -/
def add (a b : QVector3D) : QVector3D := ⟨a.x + b.x, a.y + b.y, a.z + b.z⟩

/-- Scaling by a rational factor. -/
def smul (c : ℚ) (a : QVector3D) : QVector3D := ⟨c * a.x, c * a.y, c * a.z⟩

/-- The cross product `a × b`. -/
def crossProduct (a b : QVector3D) : QVector3D :=
  ⟨a.y * b.z - a.z * b.y, a.z * b.x - a.x * b.z, a.x * b.y - a.y * b.x⟩

/-- The dot product `a · b`. -/
def dotProduct (a b : QVector3D) : ℚ := a.x * b.x + a.y * b.y + a.z * b.z

end QVector3D

/-! ## The mesh literals of `initProgram` -/

/-- The local `vertices` of `initProgram`: the eight corners of the cube. -/
def vertices : List QVector3D :=
  [ -- front
    ⟨-1, -1, 1⟩, ⟨1, -1, 1⟩, ⟨1, 1, 1⟩, ⟨-1, 1, 1⟩,
    -- back
    ⟨-1, -1, -1⟩, ⟨1, -1, -1⟩, ⟨1, 1, -1⟩, ⟨-1, 1, -1⟩ ]

/-- The local `colors` of `initProgram`: one colour per vertex. -/
def colors : List QVector3D :=
  [ -- front colors
    ⟨1, 0, 0⟩, ⟨0, 1, 0⟩, ⟨0, 0, 1⟩, ⟨1, 1, 1⟩,
    -- back colors
    ⟨1, 0, 0⟩, ⟨0, 1, 0⟩, ⟨0, 0, 1⟩, ⟨1, 1, 1⟩ ]

/-- The local `indices` of `initProgram`: two triangles per face. -/
def indices : List Nat :=
  [ -- front
    0, 1, 2,
    2, 3, 0,
    -- right
    1, 5, 6,
    6, 2, 1,
    -- back
    7, 6, 5,
    5, 4, 7,
    -- left
    4, 0, 3,
    3, 7, 4,
    -- bottom
    4, 5, 1,
    1, 0, 4,
    -- top
    3, 2, 6,
    6, 7, 3 ]

/-- The index list cut into consecutive triples, as `GL_TRIANGLES` reads it;
an incomplete trailing group is dropped. -/
def triangles : List Nat → List (Nat × Nat × Nat)
  | i0 :: i1 :: i2 :: rest => (i0, i1, i2) :: triangles rest
  | _ => []

/-- The position of vertex `i` (the origin when `i` is out of range). -/
def vertexAt (i : Nat) : QVector3D := vertices.getD i ⟨0, 0, 0⟩

/-- The face normal `(v[i1] - v[i0]) × (v[i2] - v[i0])` of a triangle. -/
def triangleNormal (t : Nat × Nat × Nat) : QVector3D :=
  QVector3D.crossProduct
    (QVector3D.sub (vertexAt t.2.1) (vertexAt t.1))
    (QVector3D.sub (vertexAt t.2.2) (vertexAt t.1))

/-- The centroid `(v[i0] + v[i1] + v[i2]) / 3` of a triangle. -/
def triangleCentroid (t : Nat × Nat × Nat) : QVector3D :=
  QVector3D.smul (1 / 3)
    (QVector3D.add (QVector3D.add (vertexAt t.1) (vertexAt t.2.1)) (vertexAt t.2.2))

/-- A triangle is wound outward when its normal has a positive dot product
with its centroid (the cube is centred at the origin). -/
def woundOutward (t : Nat × Nat × Nat) : Bool :=
  decide (0 < QVector3D.dotProduct (triangleNormal t) (triangleCentroid t))

/-! ## Toolkit objects -/

/-- A `QMatrix4x4`, as the record of the operations applied to it.  A
default-constructed matrix and `setToIdentity()` give `identity`; the member
functions `lookAt`, `perspective` and `rotate` multiply the receiver `m` by
the matrix their arguments describe. -/
inductive QMatrix4x4 where
  | identity
  | lookAt (m : QMatrix4x4) (eye center up : QVector3D)
  | perspective (m : QMatrix4x4) (verticalAngle aspectRatio nearPlane farPlane : FloatExpr)
  | rotate (m : QMatrix4x4) (angle : FloatExpr) (axis : QVector3D)
  | mul (a b : QMatrix4x4)
  deriving DecidableEq

/-- The `int` by which the aspect ratio of a perspective matrix was divided,
when the matrix is a perspective whose aspect ratio is a quotient by an
`int` converted to `float`. -/
def QMatrix4x4.aspectDivisor : QMatrix4x4 → Option Int
  | .perspective _ _ (.div _ (.ofInt d)) _ _ => some d
  | _ => none

/-- The aspect-ratio argument of a perspective matrix. -/
def QMatrix4x4.aspectRatio : QMatrix4x4 → Option FloatExpr
  | .perspective _ _ a _ _ => some a
  | _ => none

/-- The exact value of a `float` expression, before any rounding; there is
none when the expression divides by zero. -/
def FloatExpr.exact : FloatExpr → Option ℚ
  | .lit q => some q
  | .ofInt i => some i
  | .div a b =>
    match a.exact, b.exact with
    | some x, some y => if y = 0 then none else some (x / y)
    | _, _ => none

/-- The shader stages the widget uses (`QOpenGLShader::Vertex`, `Fragment`). -/
inductive ShaderType where
  | Vertex
  | Fragment
  deriving DecidableEq

/-- A `QOpenGLShaderProgram` object: the shaders that were added to it
successfully and whether `link()` succeeded. -/
structure QOpenGLShaderProgram where
  shaders : List ShaderType
  linked : Bool
  deriving DecidableEq

/-- The two kinds of `QOpenGLBuffer` (`GL_ARRAY_BUFFER`,
`GL_ELEMENT_ARRAY_BUFFER`). -/
inductive BufferType where
  | VertexBuffer
  | IndexBuffer
  deriving DecidableEq

/-- A `QOpenGLBuffer` member: its type, whether `create()` was called, and
the byte count of the last `allocate`. -/
structure QOpenGLBuffer where
  bufferType : BufferType
  created : Bool
  size : Int
  deriving DecidableEq

/-- The three buffer members of the widget. -/
inductive BufferName where
  | vertex_buffer
  | color_buffer
  | index_buffer
  deriving DecidableEq

/-- The type each buffer member is constructed with (constructor
initialiser list). -/
def BufferName.bufferType : BufferName → BufferType
  | .vertex_buffer => .VertexBuffer
  | .color_buffer => .VertexBuffer
  | .index_buffer => .IndexBuffer

/-- The array a buffer upload reads from. -/
inductive BufferData where
  /-- the array of a `std::vector<QVector3D>`, from `data()` -/
  | vectors (l : List QVector3D)
  /-- the array of a `std::vector<unsigned int>`, from `data()` -/
  | uints (l : List Nat)
  deriving DecidableEq

/-- The size in bytes of `QVector3D` (three `float`s). -/
def sizeof_QVector3D : Nat := 12

/-- The size in bytes of `unsigned int`, one 32-bit index. -/
def sizeof_unsigned_int : Nat := 4

/-- The size in bytes of the array behind a `data()` pointer. -/
def BufferData.byteSize : BufferData → Nat
  | .vectors l => l.length * sizeof_QVector3D
  | .uints l => l.length * sizeof_unsigned_int

/-- The capabilities the widget enables. -/
inductive Capability where
  | GL_DEPTH_TEST
  | GL_MULTISAMPLE
  deriving DecidableEq

/-- The toolkit and GL calls the widget can issue.  The location queries
`attributeLocation` and `uniformLocation` are folded into the calls that use
their result, which carry the name instead.  `bufferRelease` is part of the
toolkit API; it is listed so that its absence can be stated. -/
inductive Call where
  | glClearColor (r g b a : ℚ)
  | glEnable (cap : Capability)
  | glViewport (x y w h : Int)
  /-- the call `glClear(GL_COLOR_BUFFER_BIT | GL_DEPTH_BUFFER_BIT)` -/
  | glClear
  | addShaderFromSourceFile (t : ShaderType) (path : String)
  | link
  /-- the call `program->bind()`, with the program object it is called on -/
  | programBind (p : QOpenGLShaderProgram)
  | programRelease
  | enableAttributeArray (name : String)
  /-- the call `setAttributeBuffer(loc, GL_FLOAT, offset, tupleSize)` -/
  | setAttributeBuffer (name : String) (offset tupleSize : Int)
  | setUniformValue (name : String) (value : QMatrix4x4)
  | vaoCreate
  | vaoBind
  | vaoRelease
  | bufferCreate (b : BufferName)
  /-- the call `setUsagePattern(QOpenGLBuffer::StaticDraw)` -/
  | bufferSetUsagePatternStaticDraw (b : BufferName)
  | bufferBind (b : BufferName)
  /-- the call `allocate(data, count)`: upload `count` bytes starting at `data` -/
  | bufferAllocate (b : BufferName) (data : BufferData) (count : Int)
  | bufferRelease (b : BufferName)
  /-- the call `glDrawElements(GL_TRIANGLES, count, GL_UNSIGNED_INT, nullptr)` -/
  | glDrawElements (count : Int)
  /-- the call `QWidget::update()`: request a repaint -/
  | update
  deriving DecidableEq

/-- What the environment answers to the widget. -/
structure Env where
  /-- the result of `addShaderFromSourceFile` (false when the file is
  missing or does not compile) -/
  addShaderFromSourceFile : ShaderType → String → Bool
  /-- the result of `link()` for the shaders attached -/
  link : List ShaderType → Bool
  /-- the value of `sizeof(std::vector<unsigned int>)`, the size of the
  container object -/
  sizeof_vector : Nat

/-- An environment in which both shader files load and the program links,
with the 24-byte `std::vector` of the common 64-bit standard libraries. -/
def Env.desktop : Env := ⟨fun _ _ => true, fun _ => true, 24⟩

/-- An environment in which the shader source files are missing: adding a
shader fails and so does linking. -/
def Env.missingShaders : Env := ⟨fun _ _ => false, fun _ => false, 24⟩

/-- The conversion `static_cast<int>` of a `size_t`: reduction to a signed 32-bit value. -/
def static_cast_int (n : Nat) : Int :=
  if n % 2 ^ 32 < 2 ^ 31 then (n % 2 ^ 32 : Nat) else ((n % 2 ^ 32 : Nat) : Int) - 2 ^ 32

/-! ## binary32 rounding of natural numbers -/

/-- The exponent of the unit in the last place of the binary32 number
nearest to `n`: the number of halvings that bring `n` below `2 ^ 24`. -/
def ulpExponent : Nat → Nat → Nat
  | 0, _ => 0
  | fuel + 1, n => if n < 2 ^ 24 then 0 else ulpExponent fuel (n / 2) + 1

/-- Rounding of a natural number to binary32, to nearest, ties to even
(24-bit significand).  Meant for `n < 2 ^ 128`, where binary32 does not
overflow. -/
def roundBinary32 (n : Nat) : Nat :=
  let e := ulpExponent 128 n
  let q := n / 2 ^ e
  let r := n % 2 ^ e
  if 2 * r < 2 ^ e then q * 2 ^ e
  else if 2 ^ e < 2 * r then (q + 1) * 2 ^ e
  else if q % 2 = 0 then q * 2 ^ e
  else (q + 1) * 2 ^ e

/-! ## The widget -/

/-- The data members of `MyOpenGLWidget` (header, lines 29-35), preceded by
the size of the widget that the inherited `width()` and `height()` return. -/
structure MyOpenGLWidget where
  width : Int
  height : Int
  program : Option QOpenGLShaderProgram
  vao_created : Bool
  vertex_buffer : QOpenGLBuffer
  color_buffer : QOpenGLBuffer
  index_buffer : QOpenGLBuffer
  model_matrix : QMatrix4x4
  view_matrix : QMatrix4x4
  projection_matrix : QMatrix4x4
  rotation_angle : Nat
  num_of_indices : Int
  deriving DecidableEq

namespace MyOpenGLWidget

/-- The constructor: buffers get their types, every other member its default
(`program` null, matrices identity, `rotation_angle` 0, `num_of_indices` 0).
The size of the widget is the host's. -/
def new (width height : Int) : MyOpenGLWidget :=
  { width := width
    height := height
    program := none
    vao_created := false
    vertex_buffer := ⟨.VertexBuffer, false, 0⟩
    color_buffer := ⟨.VertexBuffer, false, 0⟩
    index_buffer := ⟨.IndexBuffer, false, 0⟩
    model_matrix := .identity
    view_matrix := .identity
    projection_matrix := .identity
    rotation_angle := 0
    num_of_indices := 0 }

/-- The member function `MyOpenGLWidget::initView` (lines 135-150). -/
def initView (s : MyOpenGLWidget) : MyOpenGLWidget :=
  let eye : QVector3D := ⟨3, 3, 3⟩
  let center : QVector3D := ⟨0, 0, 0⟩
  let up : QVector3D := ⟨0, 1, 0⟩
  let angle := FloatExpr.lit 45
  let aspect := FloatExpr.div (.ofInt s.width) (.ofInt s.height)
  let near_plane := FloatExpr.lit (1 / 100)
  let far_plane := FloatExpr.lit 100
  { s with
    model_matrix := .identity
    view_matrix := .lookAt .identity eye center up
    projection_matrix := .perspective .identity angle aspect near_plane far_plane }

/-- The member function `MyOpenGLWidget::initProgram` (lines 35-125). -/
def initProgram (env : Env) (s : MyOpenGLWidget) : MyOpenGLWidget × List Call :=
  let num_of_indices := static_cast_int indices.length
  let vertOk := env.addShaderFromSourceFile .Vertex "shaders/basic.vert"
  let fragOk := env.addShaderFromSourceFile .Fragment "shaders/basic.frag"
  let shaders := (if vertOk then [ShaderType.Vertex] else []) ++
    (if fragOk then [ShaderType.Fragment] else [])
  let program : QOpenGLShaderProgram := ⟨shaders, env.link shaders⟩
  let vertexBytes := static_cast_int (vertices.length * sizeof_QVector3D)
  let colorBytes := static_cast_int (colors.length * sizeof_QVector3D)
  let indexBytes := static_cast_int (indices.length * env.sizeof_vector)
  ({ s with
      num_of_indices := num_of_indices
      program := some program
      vao_created := true
      vertex_buffer := { s.vertex_buffer with created := true, size := vertexBytes }
      color_buffer := { s.color_buffer with created := true, size := colorBytes }
      index_buffer := { s.index_buffer with created := true, size := indexBytes } },
   [ .addShaderFromSourceFile .Vertex "shaders/basic.vert",
     .addShaderFromSourceFile .Fragment "shaders/basic.frag",
     .link,
     .programBind program,
     .vaoCreate,
     .vaoBind,
     -- Load vertex coordinates.
     .bufferCreate .vertex_buffer,
     .bufferSetUsagePatternStaticDraw .vertex_buffer,
     .bufferBind .vertex_buffer,
     .bufferAllocate .vertex_buffer (.vectors vertices) vertexBytes,
     .enableAttributeArray "vertex",
     .setAttributeBuffer "vertex" 0 3,
     -- Load vertex colors.
     .bufferCreate .color_buffer,
     .bufferSetUsagePatternStaticDraw .color_buffer,
     .bufferBind .color_buffer,
     .bufferAllocate .color_buffer (.vectors colors) colorBytes,
     .enableAttributeArray "color",
     .setAttributeBuffer "color" 0 3,
     -- Load indices.
     .bufferCreate .index_buffer,
     .bufferSetUsagePatternStaticDraw .index_buffer,
     .bufferBind .index_buffer,
     .bufferAllocate .index_buffer (.uints indices) indexBytes,
     .vaoRelease,
     .programRelease ])

/-- The member function `MyOpenGLWidget::initializeGL` (lines 24-33). -/
def initializeGL (env : Env) (s : MyOpenGLWidget) : MyOpenGLWidget × List Call :=
  let r := initProgram env (initView s)
  (r.1, [.glClearColor 0 0 (1 / 10) 1, .glEnable .GL_DEPTH_TEST, .glEnable .GL_MULTISAMPLE] ++ r.2)

/-- The member function `MyOpenGLWidget::resizeGL` (lines 127-133). -/
def resizeGL (s : MyOpenGLWidget) (width height : Int) : MyOpenGLWidget × List Call :=
  (initView s, [.glViewport 0 0 width height])

/-- The member function `MyOpenGLWidget::paintGL` (lines 152-175). -/
def paintGL (s : MyOpenGLWidget) : MyOpenGLWidget × List Call :=
  match s.program with
  | none => (s, [.glClear])
  | some program =>
    let rotate := QMatrix4x4.rotate .identity (.lit s.rotation_angle) ⟨0, 1, 0⟩
    let mvp := QMatrix4x4.mul
      (.mul (.mul s.projection_matrix s.view_matrix) rotate) s.model_matrix
    (s, [ .glClear,
          .programBind program,
          .setUniformValue "MVP" mvp,
          .vaoBind,
          .glDrawElements s.num_of_indices,
          .vaoRelease,
          .programRelease ])

/-- The member function `MyOpenGLWidget::onTimer` (lines 177-180). -/
def onTimer (s : MyOpenGLWidget) : MyOpenGLWidget × List Call :=
  ({ s with rotation_angle := roundBinary32 (s.rotation_angle + 1) }, [.update])

/-- The widget after `n` timer ticks. -/
def ticks : Nat → MyOpenGLWidget → MyOpenGLWidget
  | 0, s => s
  | n + 1, s => (onTimer (ticks n s)).1

end MyOpenGLWidget

/-! ## What the host does with the widget after initialisation -/

/-- The callbacks the host delivers, and its own change of the widget size. -/
inductive Event where
  /-- the host gives the widget a new size -/
  | setGeometry (width height : Int)
  | resizeGL (width height : Int)
  | paintGL
  | onTimer

/-- One event applied to the widget. -/
def step (s : MyOpenGLWidget) : Event → MyOpenGLWidget
  | .setGeometry w h => { s with width := w, height := h }
  | .resizeGL w h => (s.resizeGL w h).1
  | .paintGL => s.paintGL.1
  | .onTimer => s.onTimer.1

/-- A sequence of events applied in order. -/
def run (s : MyOpenGLWidget) (events : List Event) : MyOpenGLWidget :=
  events.foldl step s

/-! ## The binding state of the GL context -/

/-- The bindings of the context that the widget touches. -/
structure GLBindings where
  /-- a program is in use (`glUseProgram`) -/
  program : Bool
  /-- the vertex-array object of the widget is bound -/
  vao : Bool
  /-- the buffer bound to `GL_ARRAY_BUFFER`, which is context state -/
  arrayBuffer : Option BufferName
  /-- the `GL_ELEMENT_ARRAY_BUFFER` binding stored in the widget's
  vertex-array object -/
  vaoElementBuffer : Option BufferName
  /-- the `GL_ELEMENT_ARRAY_BUFFER` binding while that object is not bound -/
  defaultElementBuffer : Option BufferName
  deriving DecidableEq

/-- The `GL_ELEMENT_ARRAY_BUFFER` binding in effect. -/
def GLBindings.elementBuffer (g : GLBindings) : Option BufferName :=
  if g.vao then g.vaoElementBuffer else g.defaultElementBuffer

/-- A context in which nothing is bound. -/
def GLBindings.unbound : GLBindings := ⟨false, false, none, none, none⟩

/-- Whether nothing is bound: no program, no vertex array, no buffer on
either target. -/
def GLBindings.nothingBound (g : GLBindings) : Bool :=
  !g.program && !g.vao && g.arrayBuffer.isNone && g.elementBuffer.isNone

/-- The effect of one call on the bindings, every object having been created
successfully.  `bind()` of a program that is not linked fails without
`glUseProgram`; a buffer binds to the target of its type, the element-array
target being part of the bound vertex-array object. -/
def GLBindings.apply (g : GLBindings) : Call → GLBindings
  | .programBind p => if p.linked then { g with program := true } else g
  | .programRelease => { g with program := false }
  | .vaoBind => { g with vao := true }
  | .vaoRelease => { g with vao := false }
  | .bufferBind b =>
    match b.bufferType with
    | .VertexBuffer => { g with arrayBuffer := some b }
    | .IndexBuffer =>
      if g.vao then { g with vaoElementBuffer := some b }
      else { g with defaultElementBuffer := some b }
  | .bufferRelease b =>
    match b.bufferType with
    | .VertexBuffer => { g with arrayBuffer := none }
    | .IndexBuffer =>
      if g.vao then { g with vaoElementBuffer := none }
      else { g with defaultElementBuffer := none }
  | _ => g

/-- The bindings after a sequence of calls. -/
def GLBindings.after (g : GLBindings) (calls : List Call) : GLBindings :=
  calls.foldl GLBindings.apply g

/-! ## Lemmas shared by the theorems -/

open MyOpenGLWidget

theorem roundBinary32_of_lt (n : Nat) (h : n < 2 ^ 24) : roundBinary32 n = n := by
  have h' : n < 16777216 := by simpa using h
  simp [roundBinary32, ulpExponent, h', Nat.mod_one]

theorem roundBinary32_two_pow_24 : roundBinary32 16777216 = 16777216 := by decide

theorem roundBinary32_two_pow_24_succ : roundBinary32 16777217 = 16777216 := by decide

theorem ticks_succ (n : Nat) (s : MyOpenGLWidget) :
    ticks (n + 1) s = (onTimer (ticks n s)).1 := rfl

theorem onTimer_rotation_angle (s : MyOpenGLWidget) :
    (onTimer s).1.rotation_angle = roundBinary32 (s.rotation_angle + 1) := rfl

/-- While the angle stays within `2 ^ 24`, every tick adds exactly one. -/
theorem ticks_rotation_angle (n : Nat) (s : MyOpenGLWidget)
    (h : s.rotation_angle + n ≤ 16777216) :
    (ticks n s).rotation_angle = s.rotation_angle + n := by
  induction n with
  | zero => rfl
  | succ k ih =>
    have hk : s.rotation_angle + k ≤ 16777216 := by omega
    rw [ticks_succ, onTimer_rotation_angle, ih hk]
    by_cases hlt : s.rotation_angle + k + 1 < 16777216
    · exact roundBinary32_of_lt _ (by simpa using hlt)
    · have heq : s.rotation_angle + k + 1 = 16777216 := by omega
      rw [heq, ← Nat.add_assoc, heq]
      exact roundBinary32_two_pow_24

/-- At `2 ^ 24` the angle no longer moves. -/
theorem onTimer_saturated (s : MyOpenGLWidget) (h : s.rotation_angle = 16777216) :
    (onTimer s).1.rotation_angle = 16777216 := by
  rw [onTimer_rotation_angle, h]
  exact roundBinary32_two_pow_24_succ

theorem step_program (s : MyOpenGLWidget) (e : Event) : (step s e).program = s.program := by
  cases e <;> simp [step, resizeGL, initView, onTimer, paintGL]
  split <;> rfl

theorem step_num_of_indices (s : MyOpenGLWidget) (e : Event) :
    (step s e).num_of_indices = s.num_of_indices := by
  cases e <;> simp [step, resizeGL, initView, onTimer, paintGL]
  split <;> rfl

theorem run_program (events : List Event) (s : MyOpenGLWidget) :
    (run s events).program = s.program := by
  induction events generalizing s with
  | nil => rfl
  | cons e es ih =>
    show (run (step s e) es).program = s.program
    rw [ih, step_program]

theorem run_num_of_indices (events : List Event) (s : MyOpenGLWidget) :
    (run s events).num_of_indices = s.num_of_indices := by
  induction events generalizing s with
  | nil => rfl
  | cons e es ih =>
    show (run (step s e) es).num_of_indices = s.num_of_indices
    rw [ih, step_num_of_indices]

theorem static_cast_int_36 : static_cast_int 36 = 36 := by decide

/-! ## C1: the index list -/

/-- C1: the index list that `initProgram` defines has exactly 36 entries,
every entry lies in [0,7] and so is a position in the 8-element vertex and
colour lists; `initProgram` stores 36 in `num_of_indices` and uploads this
list to the index buffer. -/
theorem C1_indices_length_and_range :
    indices.length = 36 ∧ (∀ i ∈ indices, 0 ≤ i ∧ i ≤ 7) ∧
    vertices.length = 8 ∧ colors.length = 8 ∧
    (∀ i ∈ indices, i < vertices.length ∧ i < colors.length) ∧
    ∀ (env : Env) (s : MyOpenGLWidget),
      (initProgram env s).1.num_of_indices = 36 ∧
      ∃ count, Call.bufferAllocate .index_buffer (.uints indices) count ∈ (initProgram env s).2 := by
  refine ⟨by decide, by decide, by decide, by decide, by decide, ?_⟩
  intro env s
  refine ⟨static_cast_int_36, static_cast_int (indices.length * env.sizeof_vector), ?_⟩
  simp [initProgram]

/-! ## C9: winding -/

/-- C9: the 36 indices form 12 triangles, and for every triangle (i0,i1,i2)
the normal (v[i1]-v[i0]) x (v[i2]-v[i0]) has a positive dot product with the
centroid of the triangle: every face is wound outward. -/
theorem C9_triangles_wound_outward :
    (triangles indices).length = 12 ∧
    ∀ t ∈ triangles indices,
      0 < QVector3D.dotProduct (triangleNormal t) (triangleCentroid t) := by
  refine ⟨by decide, ?_⟩
  intro t ht
  simp only [triangles, indices, List.mem_cons, List.mem_singleton, List.not_mem_nil,
    or_false] at ht
  rcases ht with h | h | h | h | h | h | h | h | h | h | h | h <;> subst h <;>
    norm_num [QVector3D.dotProduct, triangleNormal, triangleCentroid, QVector3D.crossProduct,
      QVector3D.sub, QVector3D.add, QVector3D.smul, vertexAt, vertices]

/-! ## C5: `initView` is idempotent -/

/-- C5: for every widget state, a second `initView` with unchanged width and
height leaves the model, view and projection matrices (indeed the whole
widget) as the first call left them. -/
theorem C5_initView_idempotent (s : MyOpenGLWidget) :
    (initView (initView s)).model_matrix = (initView s).model_matrix ∧
    (initView (initView s)).view_matrix = (initView s).view_matrix ∧
    (initView (initView s)).projection_matrix = (initView s).projection_matrix ∧
    (initView (initView s)).width = s.width ∧
    (initView (initView s)).height = s.height ∧
    initView (initView s) = initView s :=
  ⟨rfl, rfl, rfl, rfl, rfl, rfl⟩

/-! ## C6: `paintGL` without a program -/

/-- C6: in every state whose `program` is null, `paintGL` issues the clear of
the colour and depth buffers and nothing else (no program or vertex-array
bind, no uniform, no draw call), and returns the widget unchanged. -/
theorem C6_paintGL_null_program (s : MyOpenGLWidget) (h : s.program = none) :
    paintGL s = (s, [Call.glClear]) := by
  simp [paintGL, h]

/-- The state right after construction has no program, and `paintGL` there
only clears. -/
theorem C6_paintGL_null_program_witness :
    (MyOpenGLWidget.new 640 480).program = none ∧
    paintGL (MyOpenGLWidget.new 640 480) = (MyOpenGLWidget.new 640 480, [Call.glClear]) :=
  ⟨rfl, C6_paintGL_null_program (MyOpenGLWidget.new 640 480) rfl⟩

/-! ## C4: the rotation angle -/

/-- C4, as stated, fails: after 16777217 ticks from angle 0 the angle is
16777216, not 16777217, because 16777216.0f + 1.0f rounds back to
16777216.0f in binary32. -/
theorem C4_ticks_exact_counterexample :
    (ticks 16777217 (MyOpenGLWidget.new 640 480)).rotation_angle = 16777216 ∧
    (ticks 16777217 (MyOpenGLWidget.new 640 480)).rotation_angle ≠ 16777217 := by
  have h : (ticks 16777216 (MyOpenGLWidget.new 640 480)).rotation_angle = 16777216 := by
    have := ticks_rotation_angle 16777216 (MyOpenGLWidget.new 640 480) (by decide)
    simpa [MyOpenGLWidget.new] using this
  have h2 : (ticks 16777217 (MyOpenGLWidget.new 640 480)).rotation_angle = 16777216 := by
    rw [show (16777217 : Nat) = 16777216 + 1 from rfl, ticks_succ]
    exact onTimer_saturated _ h
  exact ⟨h2, by rw [h2]; decide⟩

/-- C4, amended: each `onTimer` tick adds exactly 1.0 to `rotation_angle`
with no wrap as long as the result is at most 16777216 (2 ^ 24); so for every
n up to 16777216, n ticks starting from angle 0 leave `rotation_angle` equal
to n exactly. -/
theorem C4_ticks_exact_up_to_two_pow_24 (n : Nat) (s : MyOpenGLWidget)
    (h0 : s.rotation_angle = 0) (hn : n ≤ 16777216) :
    (ticks n s).rotation_angle = n := by
  have := ticks_rotation_angle n s (by omega)
  omega

/-- In particular 36 ticks from the constructed widget give exactly 36. -/
theorem C4_ticks_exact_up_to_two_pow_24_witness :
    (MyOpenGLWidget.new 640 480).rotation_angle = 0 ∧ 36 ≤ 16777216 ∧
    (ticks 36 (MyOpenGLWidget.new 640 480)).rotation_angle = 36 :=
  ⟨rfl, by decide,
    C4_ticks_exact_up_to_two_pow_24 36 (MyOpenGLWidget.new 640 480) rfl (by decide)⟩

/-! ## C2: missing shader files -/

/-- C2, as stated, fails: with the shader source files missing,
`initializeGL` leaves `program` set, and the next `paintGL` is not a
clear-only no-op: it issues the draw call. -/
theorem C2_missing_shader_counterexample :
    ((initializeGL Env.missingShaders (MyOpenGLWidget.new 640 480)).1.program
      = some ⟨[], false⟩) ∧
    (initializeGL Env.missingShaders (MyOpenGLWidget.new 640 480)).1.program ≠ none ∧
    (paintGL (initializeGL Env.missingShaders (MyOpenGLWidget.new 640 480)).1).2
      ≠ [Call.glClear] ∧
    Call.glDrawElements 36 ∈
      (paintGL (initializeGL Env.missingShaders (MyOpenGLWidget.new 640 480)).1).2 := by
  have hp : (initializeGL Env.missingShaders (MyOpenGLWidget.new 640 480)).1.program
      = some ⟨[], false⟩ := by
    simp [initializeGL, initProgram, Env.missingShaders]
  have hn : (initializeGL Env.missingShaders (MyOpenGLWidget.new 640 480)).1.num_of_indices
      = 36 := static_cast_int_36
  refine ⟨hp, by rw [hp]; simp, ?_, ?_⟩
  · simp [paintGL, hp]
  · simp [paintGL, hp, hn]

/-- C2, amended: whatever adding the shaders and linking answer (also when a
shader source file is missing), `initializeGL` leaves the `program` member
set and no later callback unsets it; every later `paintGL` clears the
buffers, binds that program, sets `MVP`, binds the vertex array and issues
the draw call of 36 indices. -/
theorem C2_program_always_set_and_drawn (env : Env) (s : MyOpenGLWidget)
    (events : List Event) :
    ∃ p, (run (initializeGL env s).1 events).program = some p ∧
      (initializeGL env s).1.program = some p ∧
      (paintGL (run (initializeGL env s).1 events)).2 =
        [ Call.glClear,
          Call.programBind p,
          Call.setUniformValue "MVP"
            (.mul (.mul (.mul (run (initializeGL env s).1 events).projection_matrix
                (run (initializeGL env s).1 events).view_matrix)
              (.rotate .identity
                (.lit (run (initializeGL env s).1 events).rotation_angle) ⟨0, 1, 0⟩))
              (run (initializeGL env s).1 events).model_matrix),
          Call.vaoBind,
          Call.glDrawElements 36,
          Call.vaoRelease,
          Call.programRelease ] := by
  obtain ⟨p, hp⟩ : ∃ p, (initializeGL env s).1.program = some p := ⟨_, rfl⟩
  have hn : (initializeGL env s).1.num_of_indices = 36 := static_cast_int_36
  have hp2 := run_program events (initializeGL env s).1
  have hn2 := run_num_of_indices events (initializeGL env s).1
  rw [hp] at hp2
  rw [hn] at hn2
  refine ⟨p, hp2, hp, ?_⟩
  simp [paintGL, hp2, hn2]

/-! ## C3: a resize to height 0 -/

/-- C3, as stated, fails: for the widget resized to width 100 and height 0,
`resizeGL(100, 0)` updates the projection with an aspect ratio whose divisor
is 0 (not a height clamped to 1), so the aspect ratio has no exact value. -/
theorem C3_zero_height_counterexample :
    ((resizeGL (MyOpenGLWidget.new 100 0) 100 0).1.projection_matrix.aspectDivisor
      = some 0) ∧
    ((resizeGL (MyOpenGLWidget.new 100 0) 100 0).1.projection_matrix.aspectRatio
      = some (.div (.ofInt 100) (.ofInt 0))) ∧
    (FloatExpr.div (.ofInt 100) (.ofInt 0)).exact = none ∧
    (resizeGL (MyOpenGLWidget.new 100 0) 100 0).1.projection_matrix
      ≠ (MyOpenGLWidget.new 100 0).projection_matrix := by
  refine ⟨rfl, rfl, ?_, ?_⟩
  · simp [FloatExpr.exact]
  · simp [resizeGL, initView, MyOpenGLWidget.new]

/-- C3, amended: for every surface width and height, `resizeGL` always
updates the projection, and the divisor `initView` uses for the aspect ratio
is the height of the widget as it is, never clamped; so the divisor is
nonzero exactly when the height is nonzero, and it is 0 after a resize to
height 0. -/
theorem C3_aspect_divisor_is_height (s : MyOpenGLWidget) (width height : Int) :
    (resizeGL s width height).1.projection_matrix.aspectRatio
      = some (.div (.ofInt s.width) (.ofInt s.height)) ∧
    (resizeGL s width height).1.projection_matrix.aspectDivisor = some s.height ∧
    ((resizeGL s width height).1.projection_matrix.aspectDivisor ≠ some 0
      ↔ s.height ≠ 0) ∧
    ((FloatExpr.div (.ofInt s.width) (.ofInt s.height)).exact = none ↔ s.height = 0) := by
  refine ⟨rfl, rfl, ?_, ?_⟩
  · show (some s.height ≠ some 0) ↔ s.height ≠ 0
    simp
  · simp [FloatExpr.exact]

/-! ## C7: the projection after a resize -/

/-- C7: for every `resizeGL(width, height)` with height > 0, delivered as the
host delivers it, with the dimensions passed being the current size of the
widget, the projection matrix afterwards is the perspective matrix with
vertical field of view 45 degrees, near plane 0.01, far plane 100.0 and
aspect ratio width/height of the dimensions passed.  Hence resizing to
800x600 and then to 400x300 gives projections with the same field of view,
near and far plane, differing at most in the aspect ratio. -/
theorem C7_projection_after_resize (s : MyOpenGLWidget) (width height : Int)
    (hw : s.width = width) (hh : s.height = height) (hpos : 0 < height) :
    ((resizeGL s width height).1.projection_matrix
      = .perspective .identity (.lit 45) (.div (.ofInt width) (.ofInt height))
          (.lit (1 / 100)) (.lit 100)) ∧
    ((resizeGL s width height).1.projection_matrix.aspectRatio
      = some (.div (.ofInt width) (.ofInt height))) ∧
    ((FloatExpr.div (.ofInt width) (.ofInt height)).exact
      = some ((width : ℚ) / (height : ℚ))) ∧
    ((run s [.setGeometry 800 600, .resizeGL 800 600]).projection_matrix
      = .perspective .identity (.lit 45) (.div (.ofInt 800) (.ofInt 600))
          (.lit (1 / 100)) (.lit 100)) ∧
    ((run s [.setGeometry 800 600, .resizeGL 800 600,
        .setGeometry 400 300, .resizeGL 400 300]).projection_matrix
      = .perspective .identity (.lit 45) (.div (.ofInt 400) (.ofInt 300))
          (.lit (1 / 100)) (.lit 100)) := by
  subst hw hh
  refine ⟨rfl, rfl, ?_, rfl, rfl⟩
  have hne : (s.height : ℚ) ≠ 0 := by
    have : s.height ≠ 0 := by omega
    exact_mod_cast this
  simp [FloatExpr.exact, hne]

/-- The widget of size 800x600 resized with its own size. -/
theorem C7_projection_after_resize_witness :
    (MyOpenGLWidget.new 800 600).width = 800 ∧
    (MyOpenGLWidget.new 800 600).height = 600 ∧
    (0 : Int) < 600 ∧
    (resizeGL (MyOpenGLWidget.new 800 600) 800 600).1.projection_matrix
      = .perspective .identity (.lit 45) (.div (.ofInt 800) (.ofInt 600))
          (.lit (1 / 100)) (.lit 100) :=
  ⟨rfl, rfl, by decide,
    (C7_projection_after_resize (MyOpenGLWidget.new 800 600) 800 600 rfl rfl (by decide)).1⟩

/-! ## C8: the byte count of the index upload -/

/-- C8: the byte count `initProgram` passes to `index_buffer.allocate` is the
number of indices times the size of the `std::vector` object, 36 x 24 = 864
with a 24-byte vector, while the index array it reads from has 36 x 4 = 144
bytes; the vertex upload next to it passes the size of its array, 8 x 12 =
96 bytes. -/
theorem C8_index_upload_byte_count :
    (∀ (env : Env) (s : MyOpenGLWidget),
      Call.bufferAllocate .index_buffer (.uints indices)
          (static_cast_int (36 * env.sizeof_vector)) ∈ (initProgram env s).2 ∧
      (initProgram env s).1.index_buffer.size = static_cast_int (36 * env.sizeof_vector)) ∧
    Call.bufferAllocate .index_buffer (.uints indices) 864
      ∈ (initProgram Env.desktop (MyOpenGLWidget.new 640 480)).2 ∧
    (BufferData.uints indices).byteSize = 144 ∧
    indices.length * sizeof_unsigned_int = 144 ∧
    (864 : Int) ≠ 144 ∧
    Call.bufferAllocate .vertex_buffer (.vectors vertices) 96
      ∈ (initProgram Env.desktop (MyOpenGLWidget.new 640 480)).2 ∧
    (BufferData.vectors vertices).byteSize = 96 := by
  have hlen : indices.length = 36 := by decide
  have h864 : static_cast_int (36 * 24) = 864 := by decide
  have h96 : static_cast_int (vertices.length * sizeof_QVector3D) = 96 := by decide
  refine ⟨?_, ?_, by decide, by decide, by decide, ?_, by decide⟩
  · intro env s
    constructor
    · simp [initProgram, hlen]
    · simp [initProgram, hlen]
  · simp [initProgram, hlen, Env.desktop, h864]
  · simp [initProgram, h96]

/-! ## C10: what stays bound after `initProgram` -/

/-- C10, as stated, fails: starting with nothing bound, after `initProgram`
something is bound: the colour buffer is still bound to the array-buffer
target. -/
theorem C10_bindings_counterexample :
    (GLBindings.unbound.after
      (initProgram Env.desktop (MyOpenGLWidget.new 640 480)).2).nothingBound = false ∧
    (GLBindings.unbound.after
      (initProgram Env.desktop (MyOpenGLWidget.new 640 480)).2).arrayBuffer
      = some .color_buffer := by
  constructor <;>
    simp [GLBindings.after, GLBindings.apply, GLBindings.unbound, GLBindings.nothingBound,
      GLBindings.elementBuffer, initProgram, Env.desktop, BufferName.bufferType]

/-- C10, amended: `initProgram` follows bind -> configure -> release for the
shader program and the vertex-array object: when it returns, neither is
bound.  The vertex, colour and index buffers are bound and never released:
the colour buffer remains bound to the array-buffer target, the index buffer
remains the element-array binding stored in the vertex-array object, and the
element-array binding in effect is the one from before the call. -/
theorem C10_bindings_after_initProgram (env : Env) (s : MyOpenGLWidget) (g : GLBindings) :
    (g.after (initProgram env s).2).program = false ∧
    (g.after (initProgram env s).2).vao = false ∧
    (g.after (initProgram env s).2).arrayBuffer = some .color_buffer ∧
    (g.after (initProgram env s).2).vaoElementBuffer = some .index_buffer ∧
    (g.after (initProgram env s).2).elementBuffer = g.defaultElementBuffer ∧
    (∀ b, Call.bufferBind b ∈ (initProgram env s).2) ∧
    (∀ b, Call.bufferRelease b ∉ (initProgram env s).2) := by
  have key : g.after (initProgram env s).2 =
      { g with program := false, vao := false, arrayBuffer := some .color_buffer,
               vaoElementBuffer := some .index_buffer } := by
    simp only [GLBindings.after, initProgram, List.foldl_cons, List.foldl_nil]
    generalize env.link _ = linked
    cases linked <;> simp [GLBindings.apply, BufferName.bufferType]
  refine ⟨by rw [key], by rw [key], by rw [key], by rw [key], ?_, ?_, ?_⟩
  · rw [key]; simp [GLBindings.elementBuffer]
  · intro b
    cases b <;> simp [initProgram]
  · intro b
    simp [initProgram]

end OpenGLQtCube
